import Mathlib

/-!
Verification development for the yellowtail real-estate enrichment pipeline.

The pipeline (package yellowtail, scripts pull_redfin.py, download_redfin.py,
summarize.py, batch_summarize.py, incremental_summarize.py) downloads a table
of listings, resolves a tax-assessed value per address through a chain of
remote calls, merges the values back onto the listing table, filters for
positive assessed values, persists the merged table, and aggregates daily
outlier-trimmed statistics.

Shallow-embedding conventions:
- JSON payloads are modelled by the inductive `Json`; numeric JSON leaves are
  integers (assessed values, years and response codes are integral in the
  data).  Objects produced by json.loads and by the redfin client library have
  unique keys, so association-list lookup of the first matching key models
  dictionary lookup.
- A requests.Response is modelled by its status code together with the result
  of json.loads applied to response.text[4:]: `body = none` models a body that
  is not valid JSON there (where the source json.loads call raises), and
  `body = some j` models a successful parse to `j`.
- Python exceptions are modelled by the `Except PyErr` monad: a `.error`
  result of a modelled function marks the place where the source raises.
- pandas DataFrames of listings are modelled by `Frame` (a column list plus
  rows of column-to-string cells); numeric work on the summarize side is
  modelled over `ℚ`, and the float NaN produced by numpy mean/median of an
  empty list is modelled as the `none` case of `Option ℚ`.
-/

/-- A JSON value.  Numeric leaves are integers (see the header). -/
inductive Json where
  | null : Json
  | bool (b : Bool) : Json
  | num (n : Int) : Json
  | str (s : String) : Json
  | arr (elems : List Json) : Json
  | obj (fields : List (String × Json)) : Json

/-- Python exceptions that the modelled code can raise. -/
inductive PyErr where
  | jsonDecodeError : PyErr
  | keyError (k : String) : PyErr
  | typeError : PyErr
  | attributeError : PyErr
  | valueError : PyErr
deriving DecidableEq

/-- First-match association lookup; models lookup in a Python dict whose keys
are unique. -/
def jsonLookup (fields : List (String × Json)) (k : String) : Option Json :=
  match fields with
  | [] => none
  | (k2, v) :: rest => if k2 = k then some v else jsonLookup rest k

/-- Models `d.get(k, None)`: AttributeError when the receiver is not a dict,
otherwise the value or None. -/
def pyDictGet (j : Json) (k : String) : Except PyErr (Option Json) :=
  match j with
  | Json.obj fields => Except.ok (jsonLookup fields k)
  | _ => Except.error PyErr.attributeError

/-- Models `d[k]` with a string key: KeyError when the key is absent from a
dict, TypeError when the receiver is not a dict. -/
def pySubscript (j : Json) (k : String) : Except PyErr Json :=
  match j with
  | Json.obj fields =>
    match jsonLookup fields k with
    | some v => Except.ok v
    | none => Except.error (PyErr.keyError k)
  | _ => Except.error PyErr.typeError

/-- Models `k in j` for a string `k`: key membership for dicts, element
equality for lists, substring containment for strings, TypeError otherwise. -/
def pyContainsKey (k : String) (j : Json) : Except PyErr Bool :=
  match j with
  | Json.obj fields => Except.ok (jsonLookup fields k).isSome
  | Json.arr elems =>
    Except.ok (elems.any fun e =>
      match e with
      | Json.str s => s == k
      | _ => false)
  | Json.str s => Except.ok (((s.splitOn k).length > 1) || (k == ""))
  | _ => Except.error PyErr.typeError

/-- Models `len(j)`: length for lists and strings, key count for dicts,
TypeError otherwise. -/
def pyLen (j : Json) : Except PyErr Nat :=
  match j with
  | Json.arr elems => Except.ok elems.length
  | Json.obj fields => Except.ok fields.length
  | Json.str s => Except.ok s.length
  | _ => Except.error PyErr.typeError

/-- Models the comparison `resp_dict.get(..) == "Success"`: true exactly when
the looked-up value is that string. -/
def isSuccessMessage (v : Option Json) : Bool :=
  match v with
  | some (Json.str s) => s == "Success"
  | _ => false

/-- Models `j == n` between a JSON value and an integer literal. -/
def jsonEqNum (j : Json) (n : Int) : Bool :=
  match j with
  | Json.num m => m == n
  | _ => false

/-- The rollYear field of a tax record, when the record is an object carrying
an integral year. -/
def rollYearOf (e : Json) : Option Int :=
  match e with
  | Json.obj fields =>
    match jsonLookup fields "rollYear" with
    | some (Json.num y) => some y
    | _ => none
  | _ => none

/-- Of two tax records, the one placed first by a descending sort on rollYear
(records without a year sort last; on equal years the earlier record is
kept, matching an arbitrary tie-break). -/
def chooseLater (best e : Json) : Json :=
  match rollYearOf e, rollYearOf best with
  | some ye, some yb => if ye > yb then e else best
  | some _, none => e
  | none, _ => best

/-- Models `pd.DataFrame(entries).sort_values("rollYear", ascending=False)
.iloc[0]` on a list-of-records payload: a constructor error when some entry is
not a record, a KeyError when no entry carries a rollYear column, a comparison
TypeError when a present rollYear is not integral, and otherwise the record
with the greatest rollYear. -/
def selectTaxEntry (entries : List Json) : Except PyErr Json :=
  if !(entries.all fun e => match e with | Json.obj _ => true | _ => false) then
    Except.error PyErr.valueError
  else if entries.all fun e => (rollYearOf e).isNone then
    Except.error (PyErr.keyError "rollYear")
  else if !(entries.all fun e =>
      match e with
      | Json.obj fields =>
        match jsonLookup fields "rollYear" with
        | some (Json.num _) => true
        | some _ => false
        | none => true
      | _ => true) then
    Except.error PyErr.typeError
  else
    match entries with
    | [] => Except.error PyErr.valueError
    | e :: rest => Except.ok (rest.foldl chooseLater e)

/-- Models `row.get(k, 0)` on the selected tax record, read as an integer:
0 when the component is missing (the spec reads missing components as zero),
the number when present, TypeError when present but not numeric. -/
def taxComponent (e : Json) (k : String) : Except PyErr Int :=
  match e with
  | Json.obj fields =>
    match jsonLookup fields k with
    | none => Except.ok 0
    | some (Json.num n) => Except.ok n
    | some _ => Except.error PyErr.typeError
  | _ => Except.error PyErr.typeError

/-- Models `row.get("taxableLandValue", 0) + row.get("taxableImprovementValue", 0)`
on the selected tax record. -/
def taxTotal (e : Json) : Except PyErr Int :=
  match taxComponent e "taxableLandValue" with
  | Except.error err => Except.error err
  | Except.ok land =>
    match taxComponent e "taxableImprovementValue" with
    | Except.error err => Except.error err
    | Except.ok improvement => Except.ok (land + improvement)

/-- The failure sentinel returned by the resolver on every guarded failure
path (`return -1` in the source). -/
def FAILURE : Int := -1

/-- A requests.Response as seen by the resolver: the HTTP status code and the
result of parsing response.text[4:] as JSON (`none` when parsing raises). -/
structure Response where
  status_code : Nat
  body : Option Json

/-- The redfin client library: two further remote calls, modelled as total
oracles from the request argument to the returned (already parsed) JSON. -/
structure RedfinClient where
  initial_info : Json → Json
  below_the_fold : Json → Json

/-- Model of `process_redfin_response` (yellowtail/agent.py lines 186-231 and
scripts/download_redfin.py lines 123-160), step for step:
status-code guard, json.loads of text[4:], the non-short-circuiting `&` of
the errorMessage comparison and the `exactMatch in resp_dict["payload"]`
membership test (both operands evaluated, left first), the initial_info and
below_the_fold calls, the responseCode guard, the propertyId and listingId
subscripts, the allTaxInfo length guard, and the DataFrame sort selecting the
most recent tax record whose land and improvement components are summed. -/
def process_redfin_response (response : Response) (redfinclient : RedfinClient) :
    Except PyErr Int :=
  if response.status_code ≠ 200 then Except.ok FAILURE
  else
    match response.body with
    | none => Except.error PyErr.jsonDecodeError
    | some resp_dict =>
      match pyDictGet resp_dict "errorMessage" with
      | Except.error err => Except.error err
      | Except.ok errorMessage =>
        match pySubscript resp_dict "payload" with
        | Except.error err => Except.error err
        | Except.ok payload =>
          match pyContainsKey "exactMatch" payload with
          | Except.error err => Except.error err
          | Except.ok hasExactMatch =>
            if isSuccessMessage errorMessage && hasExactMatch then
              match pySubscript payload "exactMatch" with
              | Except.error err => Except.error err
              | Except.ok exactMatch =>
                match pySubscript exactMatch "url" with
                | Except.error err => Except.error err
                | Except.ok url =>
                  match pySubscript (redfinclient.initial_info url) "payload" with
                  | Except.error err => Except.error err
                  | Except.ok data =>
                    match pySubscript data "responseCode" with
                    | Except.error err => Except.error err
                    | Except.ok responseCode =>
                      if !(jsonEqNum responseCode 200) then Except.ok FAILURE
                      else
                        match pySubscript data "propertyId" with
                        | Except.error err => Except.error err
                        | Except.ok property_id =>
                          match pySubscript data "listingId" with
                          | Except.error err => Except.error err
                          | Except.ok _listing_id =>
                            match pySubscript
                                (redfinclient.below_the_fold property_id) "payload" with
                            | Except.error err => Except.error err
                            | Except.ok info_payload =>
                              match pySubscript info_payload "publicRecordsInfo" with
                              | Except.error err => Except.error err
                              | Except.ok publicRecordsInfo =>
                                match pySubscript publicRecordsInfo "allTaxInfo" with
                                | Except.error err => Except.error err
                                | Except.ok allTaxInfo =>
                                  match pyLen allTaxInfo with
                                  | Except.error err => Except.error err
                                  | Except.ok n =>
                                    if n > 0 then
                                      match allTaxInfo with
                                      | Json.arr entries =>
                                        match selectTaxEntry entries with
                                        | Except.error err => Except.error err
                                        | Except.ok tax_assessment =>
                                          taxTotal tax_assessment
                                      | _ => Except.error PyErr.valueError
                                    else Except.ok FAILURE
            else Except.ok FAILURE

/-- A redfin client whose two remote calls return null payloads; used to
evaluate the resolver at concrete inputs. -/
def trivialClient : RedfinClient :=
  { initial_info := fun _ => Json.null
    below_the_fold := fun _ => Json.null }

/-- Insertion into a Python dict built key by key: an existing key keeps its
position and gets the new value, a new key is appended. -/
def insertOrReplace (acc : List (String × Int)) (k : String) (v : Int) :
    List (String × Int) :=
  match acc with
  | [] => [(k, v)]
  | (k2, v2) :: rest =>
    if k2 = k then (k2, v) :: rest else (k2, v2) :: insertOrReplace rest k v

/-- Models `dict(pairs)`: left-to-right insertion, so a later pair with a
duplicate key overwrites the earlier value. -/
def pyDict (pairs : List (String × Int)) : List (String × Int) :=
  pairs.foldl (fun acc p => insertOrReplace acc p.1 p.2) []

/-- Model of `Agent.compile_results` (yellowtail/agent.py lines 234-245) and
of `compile_results` (scripts/download_redfin.py lines 180-188).  Each input
element models one singleton dict `{address: value}` returned by a resolver
future; itertools.chain flattens their items into one pair list, `dict`
collapses duplicates last-write-wins, and the pandas Series keeps those keys
as its index and the values as its data. -/
def compile_results (results : List (String × Int)) : List (String × Int) :=
  pyDict results

/-- Written from the spec words for last-write-wins: the value of the last
pair carrying the key, scanning the flattened result list. -/
def lastVal (pairs : List (String × Int)) (k : String) : Option Int :=
  match pairs with
  | [] => none
  | (k2, v) :: rest =>
    match lastVal rest k with
    | some w => some w
    | none => if k2 = k then some v else none

/-- One row of the listings table after digest_listings: the five kept
columns plus the derived full_address.  Cells are kept as the CSV strings;
only the tax-assessed value is interpreted numerically downstream. -/
structure ListingRow where
  address : String
  city : String
  state : String
  zip : String
  price : String
  full_address : String
deriving DecidableEq

/-- One row of the merged table produced by `Agent.digest_details`
(final_cols: the five kept columns plus tax_assessed_value and date; the
agent path derives no overpriced column). -/
structure MergedRecord where
  address : String
  city : String
  state : String
  zip : String
  price : String
  tax_assessed_value : Int
  date : String
deriving DecidableEq

/-- Model of `Agent.digest_details` (yellowtail/agent.py lines 147-161):
`df.merge(series, left_on="full_address", right_index=True)` is an inner
join, so each listing row is paired with every series entry matching its
full_address (and contributes nothing when no entry matches), then the date
stamp is assigned and final_cols are kept. -/
def digest_details (df : List ListingRow) (tax : List (String × Int))
    (timestamp : String) : List MergedRecord :=
  match df with
  | [] => []
  | row :: rest =>
    (tax.filter fun p => p.1 == row.full_address).map (fun p =>
      { address := row.address, city := row.city, state := row.state,
        zip := row.zip, price := row.price, tax_assessed_value := p.2,
        date := timestamp }) ++
    digest_details rest tax timestamp

/-- Model of the downstream filter `.query("tax_assessed_value > 0")`
(scripts/pull_redfin.py lines 37-42, scripts/download_redfin.py lines
100-105, and both summarize scripts). -/
def filter_positive (rs : List MergedRecord) : List MergedRecord :=
  rs.filter fun r => decide (0 < r.tax_assessed_value)

/-- `gen_cols` (yellowtail/agent.py lines 62-67): the expected listing
columns the agent keeps. -/
def gen_cols : List String :=
  ["ADDRESS", "CITY", "STATE OR PROVINCE", "ZIP OR POSTAL CODE", "PRICE"]

/-- `gen_final_cols` (yellowtail/agent.py lines 70-75): the columns of the
merged table the agent emits — note that no overpriced column is present. -/
def gen_final_cols : List String :=
  ["ADDRESS", "CITY", "STATE OR PROVINCE", "ZIP OR POSTAL CODE", "PRICE",
   "tax_assessed_value", "date"]

/-- `relevant_columns` (scripts/download_redfin.py lines 29-32): the columns
that script writes to listings.csv. -/
def relevant_columns : List String :=
  ["ADDRESS", "CITY", "STATE OR PROVINCE", "ZIP OR POSTAL CODE", "PRICE",
   "tax_assessed_value", "overpriced", "date"]

/-- A tabular payload: a column list and rows of column-to-cell pairs. -/
structure Frame where
  columns : List String
  rows : List (List (String × String))
deriving DecidableEq

/-- The cell of a row under a column name (empty when absent; rows of a
well-formed frame carry every column). -/
def cellValue (row : List (String × String)) (c : String) : String :=
  (row.lookup c).getD ""

/-- The derived full_address cell:
`ADDRESS + ", " + CITY + " " + STATE OR PROVINCE`. -/
def full_address_of (row : List (String × String)) : String :=
  cellValue row "ADDRESS" ++ ", " ++ cellValue row "CITY" ++ " " ++
    cellValue row "STATE OR PROVINCE"

/-- True exactly on an ok result. -/
def isOkResult (e : Except String Frame) : Bool :=
  match e with
  | Except.ok _ => true
  | Except.error _ => false

/-- Model of `Agent.digest_listings` (yellowtail/agent.py lines 99-121): a
RuntimeError when the download status is not 200, a RuntimeError when a kept
column is missing from the parsed table, otherwise the table restricted to
the kept columns with the derived full_address column appended.  The CSV
parse itself is the external entity-source boundary and is modelled by the
input frame; the two RuntimeError messages are modelled by fixed strings
(the source interpolates dynamic detail into them). -/
def digest_listings (status_code : Nat) (df : Frame) : Except String Frame :=
  if status_code ≠ 200 then Except.error "Error making listings request"
  else
    let missing_cols := gen_cols.filter fun c => !(df.columns.contains c)
    if missing_cols.length > 0 then Except.error "Redfin listings missing columns"
    else Except.ok
      { columns := gen_cols ++ ["full_address"]
        rows := df.rows.map fun row =>
          gen_cols.map (fun c => (c, cellValue row c)) ++
            [("full_address", full_address_of row)] }

/-- A frame row read back as a typed listing row. -/
def toListingRow (row : List (String × String)) : ListingRow :=
  { address := cellValue row "ADDRESS"
    city := cellValue row "CITY"
    state := cellValue row "STATE OR PROVINCE"
    zip := cellValue row "ZIP OR POSTAL CODE"
    price := cellValue row "PRICE"
    full_address := cellValue row "full_address" }

/-- The projection `final_df = processed_df.query(..)[agent.keep_cols]` row
by row: only the five listing columns survive into the written file. -/
def mergedToRow (r : MergedRecord) : List (String × String) :=
  [("ADDRESS", r.address), ("CITY", r.city), ("STATE OR PROVINCE", r.state),
   ("ZIP OR POSTAL CODE", r.zip), ("PRICE", r.price)]

/-- Every name bound in scripts/pull_redfin.py that is in scope inside main
after the output write: the module globals (imports, logger, streamhandler,
main) and the locals bound in main (start, timestamp, agent, download,
digest, details, processed_df, final_df, path_to_output, duration).  The
Python builtins define no name daskclient either. -/
def pull_redfin_scope : List String :=
  ["Path", "datetime", "logging", "time", "Agent", "logger", "streamhandler",
   "main", "start", "timestamp", "agent", "download", "digest", "details",
   "processed_df", "final_df", "path_to_output", "duration"]

/-- The outcome of one run of scripts/pull_redfin.py main: the frame written
to listings.csv.gz when the write is reached, and the error the run ends
with, if any. -/
structure RunOutcome where
  written : Option Frame
  error : Option String
deriving DecidableEq

/-- Model of `main` (scripts/pull_redfin.py lines 16-54).  The remote work of
pull_details is an oracle input `details` (the completed per-address result
dicts); digest_listings runs first and a RuntimeError there aborts the run
before anything is written; otherwise the merged table is compiled, filtered
to positive assessed values, projected to agent.keep_cols and written, after
which the line `daskclient.close()` resolves the name daskclient against the
scope of the script and raises NameError when it is absent. -/
def pull_redfin_main (status_code : Nat) (listings : Frame)
    (details : List (String × Int)) (timestamp : String) : RunOutcome :=
  match digest_listings status_code listings with
  | Except.error e => { written := none, error := some e }
  | Except.ok digest =>
    let processed_df :=
      digest_details (digest.rows.map toListingRow) (compile_results details)
        timestamp
    let final_df := filter_positive processed_df
    let outFrame : Frame := { columns := gen_cols, rows := final_df.map mergedToRow }
    if pull_redfin_scope.contains "daskclient" then
      { written := some outFrame, error := none }
    else
      { written := some outFrame,
        error := some "NameError: name daskclient is not defined" }

/-- Models `np.mean(xs)`: the arithmetic mean, with the NaN of an empty input
modelled as none. -/
def npMean (xs : List ℚ) : Option ℚ :=
  if xs.length = 0 then none else some (xs.sum / xs.length)

/-- Models `np.median(xs)`: middle of the sorted values for odd length, the
average of the two middle values for even length, NaN (none) when empty. -/
def npMedian (xs : List ℚ) : Option ℚ :=
  let s := xs.insertionSort (fun a b => a ≤ b)
  if xs.length = 0 then none
  else if xs.length % 2 = 1 then some (s.getD (xs.length / 2) 0)
  else some ((s.getD (xs.length / 2 - 1) 0 + s.getD (xs.length / 2) 0) / 2)

/-- Model of `adjusted_mean` (scripts/summarize.py lines 65-71,
scripts/batch_summarize.py lines 51-57, scripts/incremental_summarize.py
lines 51-57): keep the values strictly below the threshold, then np.mean. -/
def adjusted_mean (grouped : List ℚ) (threshold : ℚ) : Option ℚ :=
  npMean (grouped.filter fun val => decide (val < threshold))

/-- Model of `adjusted_median` (scripts/summarize.py lines 74-80,
scripts/batch_summarize.py lines 60-66, scripts/incremental_summarize.py
lines 60-66): keep the values strictly below the threshold, then np.median. -/
def adjusted_median (grouped : List ℚ) (threshold : ℚ) : Option ℚ :=
  npMedian (grouped.filter fun val => decide (val < threshold))

/-- Written from the spec words: the group with every overpriced value that
is greater than or equal to the threshold excluded. -/
def specTrimmed (vals : List ℚ) (threshold : ℚ) : List ℚ :=
  vals.filter fun v => decide (¬ (v ≥ threshold))

/-- A concrete listings download: one row carrying all expected columns. -/
def demoListings : Frame :=
  { columns := ["SALE TYPE", "ADDRESS", "CITY", "STATE OR PROVINCE",
                "ZIP OR POSTAL CODE", "PRICE"]
    rows := [[("SALE TYPE", "MLS Listing"), ("ADDRESS", "1 Main St"),
              ("CITY", "Washington"), ("STATE OR PROVINCE", "DC"),
              ("ZIP OR POSTAL CODE", "20001"), ("PRICE", "500000")]] }

/-- A concrete resolver result set covering the demo listing. -/
def demoDetails : List (String × Int) :=
  [("1 Main St, Washington DC", 350000)]

/-- The listings frame demoListings digested: the kept columns plus the
derived full_address. -/
def demoDigest : Frame :=
  { columns := ["ADDRESS", "CITY", "STATE OR PROVINCE", "ZIP OR POSTAL CODE",
                "PRICE", "full_address"]
    rows := [[("ADDRESS", "1 Main St"), ("CITY", "Washington"),
              ("STATE OR PROVINCE", "DC"), ("ZIP OR POSTAL CODE", "20001"),
              ("PRICE", "500000"), ("full_address", "1 Main St, Washington DC")]] }

/-- The demo listing as a typed row; its full_address is covered by
demoDetails. -/
def coveredRow : ListingRow :=
  { address := "1 Main St", city := "Washington", state := "DC",
    zip := "20001", price := "500000",
    full_address := "1 Main St, Washington DC" }

/-- A typed row whose full_address is covered by no resolver result. -/
def absentRow : ListingRow :=
  { address := "9 Oak Ave", city := "Washington", state := "DC",
    zip := "20002", price := "400000",
    full_address := "9 Oak Ave, Washington DC" }

/-- A one-row entity table fully covered by demoDetails. -/
def demoRows : List ListingRow := [coveredRow]

/-- A two-row entity table in which only the first row is covered by
demoDetails. -/
def mixedRows : List ListingRow := [coveredRow, absentRow]

/-- A concrete merged record with a positive assessed value. -/
def demoRecord : MergedRecord :=
  { address := "1 Main St", city := "Washington", state := "DC",
    zip := "20001", price := "500000", tax_assessed_value := 350000,
    date := "2024-05-01" }

theorem insertOrReplace_keys_toFinset (acc : List (String × Int)) (k : String) (v : Int) :
    ((insertOrReplace acc k v).map Prod.fst).toFinset = insert k (acc.map Prod.fst).toFinset := by
  induction acc with
  | nil => simp [insertOrReplace]
  | cons hd tl ih =>
    by_cases h : hd.1 = k
    · simp [insertOrReplace, h]
    · simp only [insertOrReplace]
      rw [if_neg h]
      simp [ih, Finset.Insert.comm]

theorem insertOrReplace_keys_mem (acc : List (String × Int)) (k : String) (v : Int)
    (x : String) :
    x ∈ (insertOrReplace acc k v).map Prod.fst ↔ x ∈ acc.map Prod.fst ∨ x = k := by
  induction acc with
  | nil => simp [insertOrReplace]
  | cons hd tl ih =>
    by_cases h : hd.1 = k
    · subst h
      simp only [insertOrReplace, if_pos rfl]
      simp
      tauto
    · simp only [insertOrReplace]
      rw [if_neg h]
      simp [ih]
      tauto

theorem insertOrReplace_keys_nodup (acc : List (String × Int)) (k : String) (v : Int)
    (h : (acc.map Prod.fst).Nodup) : ((insertOrReplace acc k v).map Prod.fst).Nodup := by
  induction acc with
  | nil => simp [insertOrReplace]
  | cons hd tl ih =>
    simp only [List.map_cons, List.nodup_cons] at h
    by_cases hk : hd.1 = k
    · simp only [insertOrReplace, if_pos hk]
      simp only [List.map_cons, List.nodup_cons]
      exact ⟨hk ▸ h.1, h.2⟩
    · simp only [insertOrReplace]
      rw [if_neg hk]
      simp only [List.map_cons, List.nodup_cons]
      refine ⟨?_, ih h.2⟩
      rw [insertOrReplace_keys_mem]
      rintro (hmem | rfl)
      · exact h.1 hmem
      · exact hk rfl

theorem pyDictFold_keys_toFinset (pairs : List (String × Int)) :
    ∀ acc : List (String × Int),
    (((pairs.foldl (fun acc p => insertOrReplace acc p.1 p.2) acc).map Prod.fst).toFinset
      = (acc.map Prod.fst).toFinset ∪ (pairs.map Prod.fst).toFinset) := by
  induction pairs with
  | nil => intro acc; simp
  | cons hd tl ih =>
    intro acc
    simp only [List.foldl_cons, List.map_cons, List.toFinset_cons]
    rw [ih, insertOrReplace_keys_toFinset]
    rw [Finset.insert_union, Finset.union_insert]

theorem pyDictFold_keys_nodup (pairs : List (String × Int)) :
    ∀ acc : List (String × Int), (acc.map Prod.fst).Nodup →
    ((pairs.foldl (fun acc p => insertOrReplace acc p.1 p.2) acc).map Prod.fst).Nodup := by
  induction pairs with
  | nil => intro acc h; simpa using h
  | cons hd tl ih =>
    intro acc h
    simp only [List.foldl_cons]
    exact ih _ (insertOrReplace_keys_nodup acc hd.1 hd.2 h)

theorem compile_results_keys_nodup (results : List (String × Int)) :
    ((compile_results results).map Prod.fst).Nodup :=
  pyDictFold_keys_nodup results [] (by simp)

theorem compile_results_length (results : List (String × Int)) :
    (compile_results results).length = (results.map Prod.fst).toFinset.card := by
  have h1 : (compile_results results).length = ((compile_results results).map Prod.fst).length := by
    simp
  rw [h1, ← List.toFinset_card_of_nodup (compile_results_keys_nodup results)]
  unfold compile_results pyDict
  rw [pyDictFold_keys_toFinset]
  simp

theorem insertOrReplace_lookup_eq (acc : List (String × Int)) (k : String) (v : Int) :
    (insertOrReplace acc k v).lookup k = some v := by
  induction acc with
  | nil => simp [insertOrReplace, List.lookup]
  | cons hd tl ih =>
    by_cases h : hd.1 = k
    · simp [insertOrReplace, if_pos h, List.lookup, h]
    · simp only [insertOrReplace]
      rw [if_neg h]
      have hb : (k == hd.1) = false := beq_eq_false_iff_ne.mpr fun he => h he.symm
      simp only [List.lookup, hb]
      exact ih

theorem insertOrReplace_lookup_ne (acc : List (String × Int)) (k : String) (v : Int)
    (k2 : String) (h : k2 ≠ k) :
    (insertOrReplace acc k v).lookup k2 = acc.lookup k2 := by
  induction acc with
  | nil =>
    have hb : (k2 == k) = false := beq_eq_false_iff_ne.mpr h
    simp only [insertOrReplace, List.lookup, hb]
  | cons hd tl ih =>
    by_cases hh : hd.1 = k
    · subst hh
      have hb : (k2 == hd.1) = false := beq_eq_false_iff_ne.mpr h
      simp only [insertOrReplace, if_pos rfl, List.lookup, hb]
    · simp only [insertOrReplace]
      rw [if_neg hh]
      by_cases he : k2 = hd.1
      · have hb : (k2 == hd.1) = true := beq_iff_eq.mpr he
        simp only [List.lookup, hb]
      · have hb : (k2 == hd.1) = false := beq_eq_false_iff_ne.mpr he
        simp only [List.lookup, hb]
        exact ih

theorem pyDictFold_lookup (pairs : List (String × Int)) :
    ∀ acc : List (String × Int), ∀ k : String,
    (pairs.foldl (fun acc p => insertOrReplace acc p.1 p.2) acc).lookup k =
      match lastVal pairs k with
      | some w => some w
      | none => acc.lookup k := by
  induction pairs with
  | nil => intro acc k; simp [lastVal]
  | cons hd tl ih =>
    intro acc k
    simp only [List.foldl_cons, lastVal]
    rw [ih]
    cases h : lastVal tl k with
    | some w => simp
    | none =>
      simp only []
      by_cases he : hd.1 = k
      · subst he
        rw [if_pos rfl, insertOrReplace_lookup_eq]
      · rw [if_neg he, insertOrReplace_lookup_ne _ _ _ _ fun x => he x.symm]

theorem compile_results_lookup (results : List (String × Int)) (k : String) :
    (compile_results results).lookup k = lastVal results k := by
  unfold compile_results pyDict
  rw [pyDictFold_lookup]
  cases h : lastVal results k <;> simp [List.lookup]

theorem filter_key_length (tax : List (String × Int)) (k : String)
    (h : (tax.map Prod.fst).Nodup) :
    (tax.filter fun p => p.1 == k).length =
      if k ∈ tax.map Prod.fst then 1 else 0 := by
  induction tax with
  | nil => simp
  | cons hd tl ih =>
    simp only [List.map_cons, List.nodup_cons] at h
    by_cases he : hd.1 = k
    · subst he
      have hnil : (tl.filter fun p => p.1 == hd.1).length = 0 := by
        rw [List.length_eq_zero, List.filter_eq_nil_iff]
        intro p hp hb
        exact h.1 (by
          rw [beq_iff_eq] at hb
          exact hb ▸ List.mem_map_of_mem Prod.fst hp)
      simp [List.filter_cons, hnil]
    · have hb : (hd.1 == k) = false := beq_eq_false_iff_ne.mpr he
      simp only [List.filter_cons, hb, Bool.false_eq_true, if_false, List.map_cons]
      rw [ih h.2]
      by_cases hm : k ∈ tl.map Prod.fst
      · rw [if_pos hm, if_pos (List.mem_cons_of_mem _ hm)]
      · rw [if_neg hm, if_neg (by
          intro hc
          rcases List.mem_cons.mp hc with hc | hc
          · exact he hc.symm
          · exact hm hc)]

theorem digest_details_length (df : List ListingRow) (tax : List (String × Int))
    (d : String) (hnodup : (tax.map Prod.fst).Nodup) :
    (digest_details df tax d).length =
      (df.filter fun row => (tax.map Prod.fst).contains row.full_address).length := by
  induction df with
  | nil => simp [digest_details]
  | cons row rest ih =>
    simp only [digest_details, List.length_append, List.length_map, ih,
      List.filter_cons]
    rw [filter_key_length tax row.full_address hnodup]
    by_cases hm : row.full_address ∈ tax.map Prod.fst
    · rw [if_pos hm, if_pos (by simpa [List.contains] using hm)]
      simp only [List.length_cons]
      omega
    · rw [if_neg hm, if_neg (by simpa [List.contains] using hm)]
      simp

theorem digest_details_date (df : List ListingRow) (tax : List (String × Int))
    (d : String) : ∀ r ∈ digest_details df tax d, r.date = d := by
  induction df with
  | nil => simp [digest_details]
  | cons row rest ih =>
    intro r hr
    simp only [digest_details, List.mem_append] at hr
    rcases hr with hr | hr
    · rcases List.mem_map.mp hr with ⟨p, _, rfl⟩
      rfl
    · exact ih r hr

theorem chooseLater_cases (best e : Json) :
    chooseLater best e = best ∨ chooseLater best e = e := by
  unfold chooseLater
  rcases rollYearOf e with _ | ye <;> rcases rollYearOf best with _ | yb <;> simp
  by_cases h : ye > yb <;> simp [h]

theorem foldl_chooseLater_mem (rest : List Json) :
    ∀ e : Json, rest.foldl chooseLater e ∈ e :: rest := by
  induction rest with
  | nil => intro e; simp
  | cons x xs ih =>
    intro e
    simp only [List.foldl_cons]
    have hm := ih (chooseLater e x)
    rcases List.mem_cons.mp hm with hm | hm
    · rcases chooseLater_cases e x with h | h
      · rw [hm, h]
        exact List.mem_cons_self _ _
      · rw [hm, h]
        exact List.mem_cons_of_mem _ (List.mem_cons_self _ _)
    · exact List.mem_cons_of_mem _ (List.mem_cons_of_mem _ hm)

theorem selectTaxEntry_mem (entries : List Json) (e : Json)
    (h : selectTaxEntry entries = Except.ok e) : e ∈ entries := by
  unfold selectTaxEntry at h
  split at h
  · exact absurd h (by simp)
  · split at h
    · exact absurd h (by simp)
    · split at h
      · exact absurd h (by simp)
      · cases entries with
        | nil => exact absurd h (by simp)
        | cons hd rest =>
          rw [Except.ok.injEq] at h
          exact h ▸ foldl_chooseLater_mem rest hd

theorem resolver_ok_characterization (resp : Response) (rc : RedfinClient) (v : Int)
    (hok : process_redfin_response resp rc = Except.ok v) :
    v = FAILURE ∨ ∃ entries e, selectTaxEntry entries = Except.ok e ∧
      e ∈ entries ∧ taxTotal e = Except.ok v := by
  unfold process_redfin_response at hok
  repeat' split at hok
  all_goals first
    | (rw [Except.ok.injEq] at hok; exact Or.inl hok.symm)
    | exact absurd hok (by simp)
    | exact Or.inr ⟨_, _, by assumption, selectTaxEntry_mem _ _ (by assumption), hok⟩

theorem missing_cols_iff (df : Frame) :
    ((gen_cols.filter fun c => !(df.columns.contains c)).length > 0) ↔
      ∃ c, c ∈ gen_cols ∧ c ∉ df.columns := by
  rw [gt_iff_lt, List.length_pos]
  constructor
  · intro hne
    rcases List.exists_mem_of_ne_nil _ hne with ⟨c, hc⟩
    rcases List.mem_filter.mp hc with ⟨hc1, hc2⟩
    exact ⟨c, hc1, by simpa [List.contains] using hc2⟩
  · rintro ⟨c, hc1, hc2⟩
    intro hnil
    have hall := List.filter_eq_nil_iff.mp hnil c hc1
    exact hall (by simpa [List.contains] using hc2)

theorem npMean_eq_none (xs : List ℚ) : npMean xs = none ↔ xs = [] := by
  unfold npMean
  split <;> simp_all [List.length_eq_zero]

theorem npMedian_eq_none (xs : List ℚ) : npMedian xs = none ↔ xs = [] := by
  unfold npMedian
  split
  · simp_all [List.length_eq_zero]
  · split <;> simp_all [List.length_eq_zero]

theorem trimmed_eq (l : List ℚ) (t : ℚ) :
    (l.filter fun v => decide (v < t)) = specTrimmed l t := by
  unfold specTrimmed
  apply List.filter_congr
  intro v _
  exact decide_eq_decide.mpr (lt_iff_not_ge v t)

/-- C1: the claim that process_redfin_response never raises is contradicted
by the code: with status 200 and a body that is not valid JSON the source
json.loads call raises, and with a JSON object lacking the payload key the
subscript resp_dict["payload"] raises KeyError even when errorMessage is not
Success, because the non-short-circuiting & evaluates both operands.  This
theorem evaluates the resolver model at both failing inputs. -/
theorem C1_resolver_uncaught_errors :
    process_redfin_response { status_code := 200, body := none } trivialClient
      = Except.error PyErr.jsonDecodeError ∧
    process_redfin_response
      { status_code := 200,
        body := some (Json.obj [("errorMessage", Json.str "fail")]) } trivialClient
      = Except.error (PyErr.keyError "payload") :=
  ⟨rfl, rfl⟩

/-- C2: compile_results collapses the per-address singleton result dicts into
a mapping whose size is the number of distinct addresses, keeps the last
value written for a duplicate address, and maps the empty input to the empty
mapping. -/
theorem C2_compile_results_distinct_lastwrite (results : List (String × Int))
    (k : String) :
    (compile_results results).length = (results.map Prod.fst).toFinset.card ∧
    (compile_results results).lookup k = lastVal results k ∧
    compile_results ([] : List (String × Int)) = [] :=
  ⟨compile_results_length results, compile_results_lookup results k, rfl⟩

/-- C3: when the enrichment map produced by compile_results covers the
full_address key of every entity row, digest_details emits exactly one merged
record per entity row, each stamped with the processing date. -/
theorem C3_merge_completeness (df : List ListingRow)
    (results : List (String × Int)) (d : String)
    (hcov : ∀ row ∈ df, row.full_address ∈ (compile_results results).map Prod.fst) :
    (digest_details df (compile_results results) d).length = df.length ∧
    ∀ r ∈ digest_details df (compile_results results) d, r.date = d := by
  constructor
  · rw [digest_details_length df _ d (compile_results_keys_nodup results)]
    have hself : (df.filter fun row =>
        ((compile_results results).map Prod.fst).contains row.full_address) = df := by
      rw [List.filter_eq_self]
      intro row hrow
      simpa [List.contains] using hcov row hrow
    rw [hself]
  · exact digest_details_date df _ d

/-- Witness for C3 at a concrete covered entity table. -/
theorem C3_merge_completeness_witness :
    (digest_details demoRows (compile_results demoDetails) "2024-05-01").length
      = demoRows.length ∧
    ∀ r ∈ digest_details demoRows (compile_results demoDetails) "2024-05-01",
      r.date = "2024-05-01" :=
  C3_merge_completeness demoRows demoDetails "2024-05-01" (by decide)

/-- C4: the trimmed statistics equal the plain numpy mean and median of the
spec-side trimmed group (the values greater than or equal to the threshold
excluded), and on [100, 50, 300000] with threshold 200000 the trimmed mean
and median are 75 while the untrimmed mean is not. -/
theorem C4_outlier_trimming (l : List ℚ) (t : ℚ) :
    adjusted_mean l t = npMean (specTrimmed l t) ∧
    adjusted_median l t = npMedian (specTrimmed l t) ∧
    adjusted_mean [100, 50, 300000] 200000 = some 75 ∧
    adjusted_median [100, 50, 300000] 200000 = some 75 ∧
    npMean [100, 50, 300000] ≠ some 75 := by
  refine ⟨?_, ?_, ?_, ?_, ?_⟩
  · unfold adjusted_mean
    rw [trimmed_eq]
  · unfold adjusted_median
    rw [trimmed_eq]
  · norm_num [adjusted_mean, npMean, List.filter, List.sum]
  · norm_num [adjusted_median, npMedian, List.filter, List.insertionSort,
      List.orderedInsert]
  · norm_num [npMean, List.sum]

/-- C5: the resolver sentinel is -1 and hence not positive, every ok result
of the resolver is either the sentinel or the land-plus-improvement total of
a tax record selected from the tax history list, and every record surviving
the downstream positive filter has a positive assessed value, hence never the
sentinel. -/
theorem C5_sentinel_filtered (resp : Response) (rc : RedfinClient) (v : Int)
    (rs : List MergedRecord) (r : MergedRecord)
    (hok : process_redfin_response resp rc = Except.ok v)
    (hmem : r ∈ filter_positive rs) :
    FAILURE = -1 ∧ FAILURE ≤ 0 ∧
    (v = FAILURE ∨ ∃ entries e, selectTaxEntry entries = Except.ok e ∧
      e ∈ entries ∧ taxTotal e = Except.ok v) ∧
    0 < r.tax_assessed_value ∧ r.tax_assessed_value ≠ FAILURE := by
  have hpos : 0 < r.tax_assessed_value := by
    have := (List.mem_filter.mp hmem).2
    exact of_decide_eq_true this
  refine ⟨rfl, by norm_num [FAILURE], resolver_ok_characterization resp rc v hok,
    hpos, ?_⟩
  unfold FAILURE
  omega

/-- Witness for C5 at a concrete failed response and a concrete filtered
record. -/
theorem C5_sentinel_filtered_witness :
    FAILURE = -1 ∧ FAILURE ≤ 0 ∧
    ((-1 : Int) = FAILURE ∨ ∃ entries e, selectTaxEntry entries = Except.ok e ∧
      e ∈ entries ∧ taxTotal e = Except.ok (-1 : Int)) ∧
    0 < demoRecord.tax_assessed_value ∧ demoRecord.tax_assessed_value ≠ FAILURE :=
  C5_sentinel_filtered { status_code := 404, body := none } trivialClient (-1)
    [demoRecord] demoRecord rfl (by decide)

/-- C6: the claim that every persisted merged table carries the assessed
value, overpriced and date columns fails for scripts/pull_redfin.py: its
written frame carries exactly agent.keep_cols, which contain none of
tax_assessed_value, overpriced or date (and the agent even derives no
overpriced column at all), whereas scripts/download_redfin.py does write all
eight claimed columns. -/
theorem C6_pull_redfin_drops_columns :
    ((pull_redfin_main 200 demoListings demoDetails "2024-05-01").written.map
      Frame.columns = some gen_cols) ∧
    "tax_assessed_value" ∉ gen_cols ∧ "overpriced" ∉ gen_cols ∧
    "date" ∉ gen_cols ∧ "overpriced" ∉ gen_final_cols ∧
    "tax_assessed_value" ∈ relevant_columns ∧ "overpriced" ∈ relevant_columns ∧
    "date" ∈ relevant_columns :=
  ⟨rfl, by decide, by decide, by decide, by decide, by decide, by decide, by decide⟩

/-- C7 counterexample: an entity whose key is absent from the enrichment map
is silently dropped by digest_details — the merge completes and returns an
empty record list rather than failing. -/
theorem C7_absent_key_not_fatal :
    digest_details [absentRow] [] "2024-05-01" = [] := rfl

/-- C7 amended: for an enrichment map with distinct keys, digest_details
emits records exactly for the entity rows whose full_address key is present
in the map, silently omitting the others (inner-join semantics) instead of
treating the absence as fatal. -/
theorem C7_absent_key_dropped (df : List ListingRow) (tax : List (String × Int))
    (d : String) (hnodup : (tax.map Prod.fst).Nodup) :
    (digest_details df tax d).length =
      (df.filter fun row => (tax.map Prod.fst).contains row.full_address).length :=
  digest_details_length df tax d hnodup

/-- Witness for the amended C7 at a table with one covered and one uncovered
row. -/
theorem C7_absent_key_dropped_witness :
    (digest_details mixedRows demoDetails "2024-05-01").length =
      (mixedRows.filter fun row =>
        (demoDetails.map Prod.fst).contains row.full_address).length :=
  C7_absent_key_dropped mixedRows demoDetails "2024-05-01" (by decide)

/-- C8: digest_listings fails exactly when the download status is not 200 or
an expected column is missing; on success it returns the table restricted to
the kept columns plus the derived full_address column; and when it fails the
pull_redfin run aborts with that error before any enrichment work, writing
nothing, whatever the resolver results would have been. -/
theorem C8_digest_listings_validation (status_code : Nat) (df : Frame) :
    (isOkResult (digest_listings status_code df) = false ↔
      status_code ≠ 200 ∨ ∃ c, c ∈ gen_cols ∧ c ∉ df.columns) ∧
    (∀ out, digest_listings status_code df = Except.ok out →
      out.columns = gen_cols ++ ["full_address"] ∧
      out.rows.length = df.rows.length ∧
      ∀ row ∈ df.rows,
        (gen_cols.map fun c => (c, cellValue row c)) ++
          [("full_address", full_address_of row)] ∈ out.rows) ∧
    (∀ e details ts, digest_listings status_code df = Except.error e →
      pull_redfin_main status_code df details ts =
        { written := none, error := some e }) := by
  refine ⟨?_, ?_, ?_⟩
  · unfold digest_listings isOkResult
    by_cases h : status_code ≠ 200
    · rw [if_pos h]
      simp [h]
    · rw [if_neg h]
      by_cases hm : (gen_cols.filter fun c => !(df.columns.contains c)).length > 0
      · rw [if_pos hm]
        simp [h, (missing_cols_iff df).mp hm]
      · rw [if_neg hm]
        simp only [isOkResult]
        constructor
        · intro hfalse
          exact absurd hfalse (by simp)
        · rintro (hc | hc)
          · exact absurd hc h
          · exact absurd ((missing_cols_iff df).mpr hc) hm
  · intro out hout
    unfold digest_listings at hout
    by_cases h : status_code ≠ 200
    · rw [if_pos h] at hout
      exact absurd hout (by simp)
    · rw [if_neg h] at hout
      by_cases hm : (gen_cols.filter fun c => !(df.columns.contains c)).length > 0
      · rw [if_pos hm] at hout
        exact absurd hout (by simp)
      · rw [if_neg hm] at hout
        rw [Except.ok.injEq] at hout
        subst hout
        refine ⟨rfl, by simp, ?_⟩
        intro row hrow
        exact List.mem_map_of_mem _ hrow
  · intro e details ts he
    unfold pull_redfin_main
    rw [he]

/-- Witness for C8: the demo download digests to the expected frame, and a
failed download aborts the pull_redfin run with nothing written. -/
theorem C8_digest_listings_validation_witness :
    demoDigest.columns = gen_cols ++ ["full_address"] ∧
    pull_redfin_main 404 demoListings [] "2024-05-01" =
      { written := none, error := some "Error making listings request" } :=
  ⟨((C8_digest_listings_validation 200 demoListings).2.1 demoDigest rfl).1,
   (C8_digest_listings_validation 404 demoListings).2.2
     "Error making listings request" [] "2024-05-01" rfl⟩

/-- C9: the trimmed mean and median are the undefined marker (numpy NaN,
modelled as none) exactly when every value of the group is at or above the
threshold, and being total functions into Option they raise nothing. -/
theorem C9_empty_trim_undefined (l : List ℚ) (t : ℚ) :
    (adjusted_mean l t = none ↔ (l.filter fun v => decide (v < t)) = []) ∧
    (adjusted_median l t = none ↔ (l.filter fun v => decide (v < t)) = []) := by
  unfold adjusted_mean adjusted_median
  rw [npMean_eq_none, npMedian_eq_none]
  exact ⟨Iff.rfl, Iff.rfl⟩

/-- C10: whenever digest_listings succeeds, the pull_redfin run writes the
merged listings file and then ends with a NameError, because the name
daskclient referenced by the close call after the write is bound nowhere in
the script. -/
theorem C10_daskclient_name_error (status_code : Nat) (listings : Frame)
    (details : List (String × Int)) (ts : String) (dg : Frame)
    (h : digest_listings status_code listings = Except.ok dg) :
    "daskclient" ∉ pull_redfin_scope ∧
    (pull_redfin_main status_code listings details ts).written.isSome = true ∧
    (pull_redfin_main status_code listings details ts).error =
      some "NameError: name daskclient is not defined" := by
  have hc : pull_redfin_scope.contains "daskclient" = false := rfl
  unfold pull_redfin_main
  rw [h]
  simp only [hc, Bool.false_eq_true, if_false]
  exact ⟨by decide, rfl, trivial⟩

/-- Witness for C10 at the demo run. -/
theorem C10_daskclient_name_error_witness :
    "daskclient" ∉ pull_redfin_scope ∧
    (pull_redfin_main 200 demoListings demoDetails "2024-05-01").written.isSome
      = true ∧
    (pull_redfin_main 200 demoListings demoDetails "2024-05-01").error =
      some "NameError: name daskclient is not defined" :=
  C10_daskclient_name_error 200 demoListings demoDetails "2024-05-01" demoDigest rfl
